import Mathlib

/-!
Verification of the deep-research asynchronous pipeline:
streaming-JSON extraction, tolerant parsing, per-item failure isolation,
storage/notification outcome selection, and retrying webhook delivery.
All definitions are shallow embeddings of the TypeScript source
(`src/app/api/research/route.ts`, `src/app/api/research/background/route.ts`
and the earlier blob-storing variant of the route).
-/

namespace DeepResearch

/-- JSON values as produced by `JSON.parse`. Numbers keep their source
lexeme (the claims never compare numerically distinct lexemes). -/
inductive JsonValue where
  | null
  | bool (b : Bool)
  | num (lexeme : String)
  | str (s : String)
  | arr (elems : List JsonValue)
  | obj (fields : List (String × JsonValue))

/-- JSON whitespace accepted by `JSON.parse`: space, tab, LF, CR. -/
def isJsonWs (c : Char) : Bool :=
  c = ' ' || c = '\t' || c = '\n' || c = '\r'

def skipWs (cs : List Char) : List Char := cs.dropWhile isJsonWs

def hexVal (c : Char) : Option Nat :=
  if 48 ≤ c.toNat ∧ c.toNat ≤ 57 then some (c.toNat - 48)
  else if 97 ≤ c.toNat ∧ c.toNat ≤ 102 then some (c.toNat - 87)
  else if 65 ≤ c.toNat ∧ c.toNat ≤ 70 then some (c.toNat - 55)
  else none

/-- Body of a JSON string after the opening quote, with the escape
sequences `JSON.parse` accepts; control characters below 0x20 are
rejected unescaped. -/
def parseStringBody : List Char → Option (List Char × List Char)
  | [] => none
  | '"' :: rest => some ([], rest)
  | '\\' :: '"' :: rest => (parseStringBody rest).map fun p => ('"' :: p.1, p.2)
  | '\\' :: '\\' :: rest => (parseStringBody rest).map fun p => ('\\' :: p.1, p.2)
  | '\\' :: '/' :: rest => (parseStringBody rest).map fun p => ('/' :: p.1, p.2)
  | '\\' :: 'b' :: rest => (parseStringBody rest).map fun p => (Char.ofNat 8 :: p.1, p.2)
  | '\\' :: 'f' :: rest => (parseStringBody rest).map fun p => (Char.ofNat 12 :: p.1, p.2)
  | '\\' :: 'n' :: rest => (parseStringBody rest).map fun p => ('\n' :: p.1, p.2)
  | '\\' :: 'r' :: rest => (parseStringBody rest).map fun p => ('\r' :: p.1, p.2)
  | '\\' :: 't' :: rest => (parseStringBody rest).map fun p => ('\t' :: p.1, p.2)
  | '\\' :: 'u' :: a :: b :: c :: d :: rest =>
    match hexVal a, hexVal b, hexVal c, hexVal d with
    | some x1, some x2, some x3, some x4 =>
      (parseStringBody rest).map fun p =>
        (Char.ofNat (((x1 * 16 + x2) * 16 + x3) * 16 + x4) :: p.1, p.2)
    | _, _, _, _ => none
  | '\\' :: _ => none
  | c :: rest =>
    if c.toNat < 32 then none
    else (parseStringBody rest).map fun p => (c :: p.1, p.2)

def isDigit (c : Char) : Bool := 48 ≤ c.toNat && c.toNat ≤ 57

/-- Integer part of a JSON number: `0` or a nonzero digit followed by
digits (leading zeros rejected, as in `JSON.parse`). -/
def lexInt : List Char → Option (List Char × List Char)
  | '0' :: rest => some (['0'], rest)
  | c :: rest =>
    if isDigit c then some (c :: rest.takeWhile isDigit, rest.dropWhile isDigit)
    else none
  | [] => none

/-- Optional fraction part: `.` followed by at least one digit. -/
def lexFrac : List Char → Option (List Char × List Char)
  | '.' :: rest =>
    if (rest.takeWhile isDigit).isEmpty then none
    else some ('.' :: rest.takeWhile isDigit, rest.dropWhile isDigit)
  | cs => some ([], cs)

/-- Optional exponent part: `e`/`E`, optional sign, at least one digit. -/
def lexExpPart : List Char → Option (List Char × List Char)
  | e :: rest =>
    if e = 'e' ∨ e = 'E' then
      match rest with
      | s :: rest2 =>
        if s = '+' ∨ s = '-' then
          if (rest2.takeWhile isDigit).isEmpty then none
          else some (e :: s :: rest2.takeWhile isDigit, rest2.dropWhile isDigit)
        else
          if (rest.takeWhile isDigit).isEmpty then none
          else some (e :: rest.takeWhile isDigit, rest.dropWhile isDigit)
      | [] => none
    else some ([], e :: rest)
  | [] => some ([], [])

def lexNumberCore (cs : List Char) : Option (List Char × List Char) :=
  match lexInt cs with
  | none => none
  | some (i, r1) =>
    match lexFrac r1 with
    | none => none
    | some (f, r2) =>
      match lexExpPart r2 with
      | none => none
      | some (e, r3) => some (i ++ f ++ e, r3)

def lexNumber : List Char → Option (List Char × List Char)
  | '-' :: rest => (lexNumberCore rest).map fun p => ('-' :: p.1, p.2)
  | cs => lexNumberCore cs

mutual

/-- Recursive-descent embedding of `JSON.parse` over a fuel bound. -/
def parseValue : Nat → List Char → Option (JsonValue × List Char)
  | 0, _ => none
  | fuel + 1, cs =>
    match skipWs cs with
    | 'n' :: 'u' :: 'l' :: 'l' :: rest => some (.null, rest)
    | 't' :: 'r' :: 'u' :: 'e' :: rest => some (.bool true, rest)
    | 'f' :: 'a' :: 'l' :: 's' :: 'e' :: rest => some (.bool false, rest)
    | '"' :: rest =>
      (parseStringBody rest).map fun p => (.str (String.mk p.1), p.2)
    | '[' :: rest =>
      match skipWs rest with
      | ']' :: r => some (.arr [], r)
      | _ => (parseElems fuel rest).map fun p => (.arr p.1, p.2)
    | '{' :: rest =>
      match skipWs rest with
      | '}' :: r => some (.obj [], r)
      | _ => (parseMembers fuel rest).map fun p => (.obj p.1, p.2)
    | other => (lexNumber other).map fun p => (.num (String.mk p.1), p.2)

/-- Elements of a JSON array (at least one), up to the closing bracket. -/
def parseElems : Nat → List Char → Option (List JsonValue × List Char)
  | 0, _ => none
  | fuel + 1, cs =>
    match parseValue fuel cs with
    | none => none
    | some (v, r1) =>
      match skipWs r1 with
      | ',' :: r2 => (parseElems fuel r2).map fun p => (v :: p.1, p.2)
      | ']' :: r2 => some ([v], r2)
      | _ => none

/-- Members of a JSON object (at least one), up to the closing brace. -/
def parseMembers : Nat → List Char → Option (List (String × JsonValue) × List Char)
  | 0, _ => none
  | fuel + 1, cs =>
    match skipWs cs with
    | '"' :: r0 =>
      match parseStringBody r0 with
      | none => none
      | some (k, r1) =>
        match skipWs r1 with
        | ':' :: r2 =>
          match parseValue fuel r2 with
          | none => none
          | some (v, r3) =>
            match skipWs r3 with
            | ',' :: r4 =>
              (parseMembers fuel r4).map fun p => ((String.mk k, v) :: p.1, p.2)
            | '}' :: r4 => some ([(String.mk k, v)], r4)
            | _ => none
        | _ => none
    | _ => none

end

/-- Embedding of `JSON.parse`: a full-input parse, `none` on any
syntax error (the callers catch the thrown exception). -/
def jsonParse (s : String) : Option JsonValue :=
  match parseValue (2 * s.length + 8) s.toList with
  | some (v, rest) => if (skipWs rest).isEmpty then some v else none
  | none => none

/-- The whitespace class of JavaScript regular expressions and of
`String.prototype.trim`. -/
def isJsSpace (c : Char) : Bool :=
  c.toNat = 9 || c.toNat = 10 || c.toNat = 11 || c.toNat = 12 || c.toNat = 13 ||
  c.toNat = 32 || c.toNat = 160 || c.toNat = 5760 ||
  (8192 ≤ c.toNat && c.toNat ≤ 8202) ||
  c.toNat = 8232 || c.toNat = 8233 || c.toNat = 8239 || c.toNat = 8287 ||
  c.toNat = 12288 || c.toNat = 65279

/-- Embedding of `String.prototype.trim`. -/
def jsTrim (s : String) : String :=
  String.mk (((s.toList.dropWhile isJsSpace).reverse.dropWhile isJsSpace).reverse)

/-- The word-character class `\w` of JavaScript regular expressions. -/
def isWordChar (c : Char) : Bool :=
  (48 ≤ c.toNat && c.toNat ≤ 57) || (65 ≤ c.toNat && c.toNat ≤ 90) ||
  (97 ≤ c.toNat && c.toNat ≤ 122) || c.toNat = 95

def backtick : Char := Char.ofNat 96

def squoteChar : Char := Char.ofNat 39

/-- Embedding of `text.replace(/'/g, '"')`. -/
def squoteToDquote (s : String) : String :=
  String.mk (s.toList.map fun c => if c = squoteChar then '"' else c)

/-- One match step of the route-variant key regex
`([{,]\s*)(\w+)(\s*:)` at a position just after a `{` or `,`:
greedy whitespace, a nonempty word, greedy whitespace, a colon. -/
def matchKeyTailRoute (cs : List Char) :
    Option (List Char × List Char × List Char × List Char) :=
  let ws1 := cs.takeWhile isJsSpace
  let r1 := cs.dropWhile isJsSpace
  let word := r1.takeWhile isWordChar
  let r2 := r1.dropWhile isWordChar
  if word.isEmpty then none
  else
    let ws2 := r2.takeWhile isJsSpace
    let r3 := r2.dropWhile isJsSpace
    match r3 with
    | ':' :: rest => some (ws1, word, ws2, rest)
    | _ => none

/-- Global replace of `([{,]\s*)(\w+)(\s*:)` by `$1"$2"$3`
(route and part_001 variants), scanning left to right. -/
def repairKeysRouteAux : Nat → List Char → List Char
  | 0, cs => cs
  | _ + 1, [] => []
  | fuel + 1, c :: cs =>
    if c = '{' ∨ c = ',' then
      match matchKeyTailRoute cs with
      | some (ws1, word, ws2, rest) =>
        c :: (ws1 ++ '"' :: (word ++ '"' :: (ws2 ++ ':' :: repairKeysRouteAux fuel rest)))
      | none => c :: repairKeysRouteAux fuel cs
    else c :: repairKeysRouteAux fuel cs

def repairKeysRoute (s : String) : String :=
  String.mk (repairKeysRouteAux s.toList.length s.toList)

/-- One match step of the background-variant key regex
`([{,]\\s*)(\\w+)(\\s*:)`.  The doubled backslashes make each `\\` an
escaped literal backslash, so after the `{` or `,` the pattern requires a
literal backslash, letters `s`, another backslash, letters `w`, another
backslash, letters `s`, then the colon.  Returns the matched texts of
groups 1 (minus its leading `{`/`,`), 2 and 3, and the rest. -/
def matchKeyTailBg (cs : List Char) :
    Option (List Char × List Char × List Char × List Char) :=
  match cs with
  | '\\' :: r0 =>
    let ss1 := r0.takeWhile (· = 's')
    let r1 := r0.dropWhile (· = 's')
    match r1 with
    | '\\' :: r2 =>
      let ws := r2.takeWhile (· = 'w')
      let r3 := r2.dropWhile (· = 'w')
      if ws.isEmpty then none
      else
        match r3 with
        | '\\' :: r4 =>
          let ss2 := r4.takeWhile (· = 's')
          let r5 := r4.dropWhile (· = 's')
          match r5 with
          | ':' :: rest =>
            some ('\\' :: ss1, '\\' :: ws, '\\' :: (ss2 ++ [':']), rest)
          | _ => none
        | _ => none
    | _ => none
  | _ => none

/-- Global replace of `([{,]\\s*)(\\w+)(\\s*:)` by `$1"$2"$3`
(background variant), scanning left to right. -/
def repairKeysBgAux : Nat → List Char → List Char
  | 0, cs => cs
  | _ + 1, [] => []
  | fuel + 1, c :: cs =>
    if c = '{' ∨ c = ',' then
      match matchKeyTailBg cs with
      | some (g1tail, g2, g3, rest) =>
        c :: (g1tail ++ '"' :: (g2 ++ '"' :: (g3 ++ repairKeysBgAux fuel rest)))
      | none => c :: repairKeysBgAux fuel cs
    else c :: repairKeysBgAux fuel cs

def repairKeysBg (s : String) : String :=
  String.mk (repairKeysBgAux s.toList.length s.toList)

/-- Tri-state result of the tolerant parser. -/
structure ParseResult where
  state : String
  value : Option JsonValue

/-- `parsePartialJson` from `src/app/api/research/route.ts` (and,
identically, the part_001 variant): strict parse, else quote bare keys,
replace single quotes, retry once; never throws. -/
def parsePartialJsonRoute (s : String) : ParseResult :=
  match jsonParse s with
  | some v => ⟨"successful-parse", some v⟩
  | none =>
    match jsonParse (squoteToDquote (repairKeysRoute s)) with
    | some v => ⟨"repaired-parse", some v⟩
    | none => ⟨"failed-parse", none⟩

/-- `parsePartialJson` from `src/app/api/research/background/route.ts`:
same shape, but its key regex carries doubled backslashes. -/
def parsePartialJsonBackground (s : String) : ParseResult :=
  match jsonParse s with
  | some v => ⟨"successful-parse", some v⟩
  | none =>
    match jsonParse (squoteToDquote (repairKeysBg s)) with
    | some v => ⟨"repaired-parse", some v⟩
    | none => ⟨"failed-parse", none⟩

/-- `removeJsonMarkdown` of the route/part_001 variants:
`text.replace` of the fence regex (alternatives tried left to right at
each position) followed by `trim`. -/
def stripFencesAux : Nat → List Char → List Char
  | 0, cs => cs
  | _ + 1, [] => []
  | fuel + 1, c :: rest =>
    if ([backtick, backtick, backtick, 'j', 's', 'o', 'n', '\n']).isPrefixOf (c :: rest) then
      stripFencesAux fuel ((c :: rest).drop 8)
    else if ([backtick, backtick, backtick, 'j', 's', 'o', 'n']).isPrefixOf (c :: rest) then
      stripFencesAux fuel ((c :: rest).drop 7)
    else if (['\n', backtick, backtick, backtick]).isPrefixOf (c :: rest) then
      stripFencesAux fuel ((c :: rest).drop 4)
    else if ([backtick, backtick, backtick]).isPrefixOf (c :: rest) then
      stripFencesAux fuel ((c :: rest).drop 3)
    else c :: stripFencesAux fuel rest

def removeJsonMarkdownV1 (s : String) : String :=
  jsTrim (String.mk (stripFencesAux s.toList.length s.toList))

/-- `removeJsonMarkdown` of the background variant: trim, strip a
leading ```` ```json ````, `json` or ```` ``` ```` by slicing, strip a
trailing ```` ``` ````, trim again. -/
def removeJsonMarkdownBg (s : String) : String :=
  let l := (jsTrim s).toList
  let l :=
    if ([backtick, backtick, backtick, 'j', 's', 'o', 'n']).isPrefixOf l then l.drop 7
    else if (['j', 's', 'o', 'n']).isPrefixOf l then l.drop 4
    else if ([backtick, backtick, backtick]).isPrefixOf l then l.drop 3
    else l
  let l :=
    if ([backtick, backtick, backtick]).isPrefixOf l.reverse then
      (l.reverse.drop 3).reverse
    else l
  jsTrim (String.mk l)

/-- Substring containment, as `String.prototype.includes`. -/
def containsSubstrAux (needle : List Char) : List Char → Bool
  | [] => needle.isEmpty
  | c :: cs => needle.isPrefixOf (c :: cs) || containsSubstrAux needle cs

def containsSubstr (hay needle : String) : Bool :=
  containsSubstrAux needle.toList hay.toList

/-- Own-property access on a parsed JSON object; `JSON.parse` keeps the
last of duplicate keys, so lookup prefers the last binding. -/
def lookupField : List (String × JsonValue) → String → Option JsonValue
  | [], _ => none
  | (k, v) :: rest, key =>
    match lookupField rest key with
    | some w => some w
    | none => if k = key then some v else none

/-- One planned sub-query: the `{state, learning, ...pick(item,
["query","researchGoal"])}` objects built by every pipeline variant.
`query`/`researchGoal` are `none` when `pick` found no such own
property on the parsed item. -/
structure QueryItem where
  state : String
  learning : String
  query : Option JsonValue
  researchGoal : Option JsonValue

/-- `{state: "unprocessed", learning: "", ...pick(item, ["query",
"researchGoal"])}` — radash `pick` keeps only own properties, and on a
non-object yields nothing. -/
def pickItem (v : JsonValue) : QueryItem :=
  match v with
  | .obj fs => ⟨"unprocessed", "", lookupField fs ("query"), lookupField fs ("researchGoal")⟩
  | _ => ⟨"unprocessed", "", none, none⟩

def isStringValue : Option JsonValue → Bool
  | some (.str _) => true
  | _ => false

/-- Modelled from the spec: `getSERPQuerySchema` (imported from
`@/utils/deep-research`, which is not in the source tree) per §4.3 —
succeed exactly on an array of objects each having string fields
`query` and `researchGoal`; additional fields are ignored. -/
def serpSchemaCheck (v : JsonValue) : Bool :=
  match v with
  | .arr items =>
    items.all fun it =>
      match it with
      | .obj fs => isStringValue (lookupField fs ("query")) &&
          isStringValue (lookupField fs ("researchGoal"))
      | _ => false
  | _ => false

/-- The object returned by zod's `safeParse`: a record carrying a
`success` flag (and, on success, the data).  As a JavaScript object it
is always truthy. -/
structure SafeParseResult where
  success : Bool

def serpSafeParse (v : Option JsonValue) : SafeParseResult :=
  ⟨match v with
   | some w => serpSchemaCheck w
   | none => false⟩

/-- JavaScript truthiness of the object returned by `safeParse`: any
object is truthy, whatever its `success` field says. -/
def jsTruthyObject (_ : SafeParseResult) : Bool := true

def isOptionalString : Option JsonValue → Bool
  | none => true
  | some (.str _) => true
  | _ => false

/-- The trigger endpoint's zod `requestSchema`: an object whose `query`
is any string and whose optional fields, when present, are strings;
unknown keys are stripped, never rejected. -/
def requestSchemaAccepts (body : JsonValue) : Bool :=
  match body with
  | .obj fs =>
    isStringValue (lookupField fs ("query")) &&
    isOptionalString (lookupField fs ("language")) &&
    isOptionalString (lookupField fs ("thinkingModel")) &&
    isOptionalString (lookupField fs ("networkingModel")) &&
    isOptionalString (lookupField fs ("apiKey")) &&
    isOptionalString (lookupField fs ("apiProxy")) &&
    isOptionalString (lookupField fs ("callbackUrl"))
  | _ => false

/-- The background endpoint's zod `backgroundTaskSchema` (same fields
minus `apiProxy`). -/
def backgroundTaskSchemaAccepts (body : JsonValue) : Bool :=
  match body with
  | .obj fs =>
    isStringValue (lookupField fs ("query")) &&
    isOptionalString (lookupField fs ("language")) &&
    isOptionalString (lookupField fs ("thinkingModel")) &&
    isOptionalString (lookupField fs ("networkingModel")) &&
    isOptionalString (lookupField fs ("apiKey")) &&
    isOptionalString (lookupField fs ("callbackUrl"))
  | _ => false

/-- Outcomes of the external calls one job performs.  Each model stream
either delivers its chunks/text or raises (via the `onError` handlers,
which rethrow); `put` either returns a blob URL or rejects. -/
structure Env where
  query : String
  genResult : Except String (List String)
  itemResults : Nat → Except String String
  synthResult : Except String String
  putResult : Except String String
  callbackUrl : Option String
  reportIdFresh : String
  durationStr : String
  appUrl : Option String

/-- The terminal webhook message, by the branch of the selection chain
that produced it. -/
inductive TerminalMsg where
  | failure (query dur err : String)
  | successLink (query dur link : String)
  | successNoApp (query dur id : String)
  | ambiguous (query dur : String)
  | failureV1 (query err : String)
  | successInline (query content : String)

/-- Job-level state at the end of the research steps, before the
terminal notification. -/
structure CoreResult where
  items : List QueryItem
  learnings : List String
  reportContent : String
  researchError : Option String
  reportId : Option String
  putAttempts : List (String × String)

/-- A research-run record: the core state plus the terminal
notifications attempted. -/
structure RunResult extends CoreResult where
  terminal : List TerminalMsg

/-- Query generation in the background route: accumulate the whole
stream, strip fences, tolerant-parse (background copy), then zod
validation checked via `.success`, then map with `pick`, then reject an
empty list. -/
def bgGenerate (chunks : List String) : Except String (List QueryItem) :=
  let cleaned := removeJsonMarkdownBg (String.join chunks)
  let parsed := parsePartialJsonBackground cleaned
  if parsed.state = "failed-parse" then
    .error ("Failed to parse initial research queries JSON.")
  else
    let validation := serpSafeParse parsed.value
    if !validation.success then
      .error ("Initial research queries JSON failed schema validation: ")
    else
      let queries :=
        match parsed.value with
        | some (.arr items) => items.map pickItem
        | _ => []
      if queries.isEmpty then
        .error ("Generated valid JSON for initial queries, but it was empty or not an array.")
      else .ok queries

/-- The early-exit generation loop of the route/part_001 variants:
after each chunk, tolerant-parse the accumulated fence-stripped buffer;
the `if (querySchema.safeParse(data.value))` guard tests the truthiness
of the `safeParse` result object, which is always truthy, so the loop
adopts any parsed array and breaks, schema-conforming or not. -/
def genLoopEarlyExit : List String → String → Nat → (List QueryItem × Nat × String)
  | [], content, n => ([], n, content)
  | ch :: rest, content, n =>
    let content := content ++ ch
    let data := parsePartialJsonRoute (removeJsonMarkdownV1 content)
    if jsTruthyObject (serpSafeParse data.value) then
      if data.state = "repaired-parse" ∨ data.state = "successful-parse" then
        match data.value with
        | some (.arr items) => (items.map pickItem, n + 1, content)
        | _ => genLoopEarlyExit rest content (n + 1)
      else genLoopEarlyExit rest content (n + 1)
    else genLoopEarlyExit rest content (n + 1)

/-- Query generation of the route/part_001 variants: run the early-exit
loop, then fail if no queries were adopted. -/
def v1Generate (chunks : List String) : Except String (List QueryItem) :=
  let g := genLoopEarlyExit chunks ("") 0
  if g.1.isEmpty then .error ("Failed to generate valid initial research queries.")
  else .ok g.1

/-- The per-item retrieval loop over all items (route v1 and background
variants): a failure marks the item `failed` and continues; a success
marks it `processed`, stores the learning, and appends it. -/
def processItemsAux (outcomes : Nat → Except String String) :
    Nat → List QueryItem → List QueryItem × List String
  | _, [] => ([], [])
  | i, item :: rest =>
    let r := processItemsAux outcomes (i + 1) rest
    match outcomes i with
    | .ok t => ({ item with state := "processed", learning := t } :: r.1, t :: r.2)
    | .error _ => ({ item with state := "failed" } :: r.1, r.2)

def processItems (outcomes : Nat → Except String String) (items : List QueryItem) :
    List QueryItem × List String :=
  processItemsAux outcomes 0 items

/-- The per-item loop of the part_001 variant, whose header reads
`for (let i = 0; i < 1; i++)`: only the first item is ever processed. -/
def processItemsFirstOnly (outcomes : Nat → Except String String) :
    List QueryItem → List QueryItem × List String
  | [] => ([], [])
  | item :: rest =>
    match outcomes 0 with
    | .ok t => ({ item with state := "processed", learning := t } :: rest, [t])
    | .error _ => ({ item with state := "failed" } :: rest, [])

/-- Terminal-message selection shared by the background and part_001
variants: error, else id with app URL, else id without, else the
ambiguous outcome. -/
def selectTerminal (q dur : String) (researchError : Option String)
    (reportId : Option String) (appUrl : Option String) : TerminalMsg :=
  match researchError with
  | some e => .failure q dur e
  | none =>
    match reportId, appUrl with
    | some rid, some a => .successLink q dur (a ++ "/report/" ++ rid)
    | some rid, none => .successNoApp q dur rid
    | none, _ => .ambiguous q dur

/-- The research core of the background route `POST` (steps 1–4):
generation and its throws reach the outer catch; per-item failures are
absorbed; synthesis has its own catch and an emptiness check; storage
runs only with no error and nonempty content, and its failure clears
the id and rewrites the body. -/
def runBackgroundCore (env : Env) : CoreResult :=
  match env.genResult with
  | .error e => ⟨[], [], "Research failed: " ++ e, some e, none, []⟩
  | .ok chunks =>
    match bgGenerate chunks with
    | .error e => ⟨[], [], "Research failed: " ++ e, some e, none, []⟩
    | .ok queries =>
      let pr := processItems env.itemResults queries
      let syn : Option String × String :=
        match env.synthResult with
        | .error e =>
          (some e, "Research completed, but report generation failed: " ++ e)
        | .ok t =>
          if jsTrim t = "" then
            (some ("Generated report is empty"),
             "Research completed, but report generation failed: Generated report is empty")
          else (none, t)
      match syn.1 with
      | some e => ⟨pr.1, pr.2, syn.2, some e, none, []⟩
      | none =>
        if syn.2 ≠ "" then
          let path := "reports/" ++ env.reportIdFresh ++ ".md"
          match env.putResult with
          | .ok _ => ⟨pr.1, pr.2, syn.2, none, some env.reportIdFresh, [(path, syn.2)]⟩
          | .error e =>
            ⟨pr.1, pr.2,
             "Research completed, but failed to save report: Failed to upload report to storage: " ++ e,
             some ("Failed to upload report to storage: " ++ e), none, [(path, syn.2)]⟩
        else ⟨pr.1, pr.2, syn.2, none, none, []⟩

/-- The background route `POST` including its terminal notification:
with a callback URL exactly one terminal message is handed to the
retrying notifier (whose own delivery failure is caught and logged);
without one, none. -/
def runBackground (env : Env) : RunResult :=
  let core := runBackgroundCore env
  ⟨core,
   match env.callbackUrl with
   | none => []
   | some _ =>
     [selectTerminal env.query env.durationStr core.researchError core.reportId env.appUrl]⟩

/-- The research core of the part_001 `runResearchInBackground`:
early-exit generation, the `i < 1` item loop, synthesis with no local
catch and no emptiness check, then storage. -/
def runPart001Core (env : Env) : CoreResult :=
  match env.genResult with
  | .error e => ⟨[], [], "Research failed: " ++ e, some e, none, []⟩
  | .ok chunks =>
    match v1Generate chunks with
    | .error e => ⟨[], [], "Research failed: " ++ e, some e, none, []⟩
    | .ok queries =>
      let pr := processItemsFirstOnly env.itemResults queries
      match env.synthResult with
      | .error e => ⟨pr.1, pr.2, "Research failed: " ++ e, some e, none, []⟩
      | .ok t =>
        if t ≠ "" then
          let path := "reports/" ++ env.reportIdFresh ++ ".md"
          match env.putResult with
          | .ok _ => ⟨pr.1, pr.2, t, none, some env.reportIdFresh, [(path, t)]⟩
          | .error e =>
            ⟨pr.1, pr.2,
             "Research completed, but failed to save report: Failed to upload report to storage: " ++ e,
             some ("Failed to upload report to storage: " ++ e), none, [(path, t)]⟩
        else ⟨pr.1, pr.2, t, none, none, []⟩

/-- The part_001 `runResearchInBackground` including its terminal
notification (one plain `fetch`, failure caught). -/
def runPart001 (env : Env) : RunResult :=
  let core := runPart001Core env
  ⟨core,
   match env.callbackUrl with
   | none => []
   | some _ =>
     [selectTerminal env.query env.durationStr core.researchError core.reportId env.appUrl]⟩

/-- The research core of the first-variant `runResearchInBackground`
in `route.ts`: early-exit generation, full item loop, synthesis with no
catch, no storage step. -/
def runV1Core (env : Env) : CoreResult :=
  match env.genResult with
  | .error e => ⟨[], [], "Research failed: " ++ e, some e, none, []⟩
  | .ok chunks =>
    match v1Generate chunks with
    | .error e => ⟨[], [], "Research failed: " ++ e, some e, none, []⟩
    | .ok queries =>
      let pr := processItems env.itemResults queries
      match env.synthResult with
      | .error e => ⟨pr.1, pr.2, "Research failed: " ++ e, some e, none, []⟩
      | .ok t => ⟨pr.1, pr.2, t, none, none, []⟩

/-- The first-variant job including its terminal notification: a
failure message with the error, or the report content inlined. -/
def runV1 (env : Env) : RunResult :=
  let core := runV1Core env
  ⟨core,
   match env.callbackUrl with
   | none => []
   | some _ =>
     [match core.researchError with
      | some e => .failureV1 env.query e
      | none => .successInline env.query core.reportContent]⟩

/-- Outcome of one `fetch` attempt inside `fetchWithRetry`. -/
inductive FetchOutcome where
  | ok
  | err (msg : String)

/-- One delivery attempt: the abort-timer bound set on it and the
backoff wait that preceded it. -/
structure Attempt where
  timeoutMs : Nat
  waitBeforeMs : Nat

/-- `fetchWithRetry`'s transient-fault test: the error message contains
`TLS`, `ECONNRESET` or `ETIMEDOUT`. -/
def isTransientMsg (msg : String) : Bool :=
  containsSubstr msg ("TLS") || containsSubstr msg ("ECONNRESET") ||
  containsSubstr msg ("ETIMEDOUT")

/-- The retry loop of `fetchWithRetry` (both copies are identical),
over the list of iteration indices still to run and the pending backoff
wait.  A success returns; a non-transient failure, or a failure on the
last iteration (`i === maxRetries - 1`), rethrows; otherwise wait
`2^i * 2000` ms and retry.  Each attempt carries the 10-second abort
timer.  An empty index list is the `for` loop falling through, which
throws `lastError || new Error('Max retries reached')`. -/
def fetchLoop (outcomes : Nat → FetchOutcome) (maxRetries : Nat) :
    List Nat → Nat → Except String Unit × List Attempt
  | [], _ => (.error ("Max retries reached"), [])
  | i :: restIdx, w =>
    let att : Attempt := ⟨10000, w⟩
    match outcomes i with
    | .ok => (.ok (), [att])
    | .err m =>
      if !isTransientMsg m || i = maxRetries - 1 then (.error m, [att])
      else
        let next := fetchLoop outcomes maxRetries restIdx (2 ^ i * 2000)
        (next.1, att :: next.2)

/-- `fetchWithRetry(url, options, maxRetries = 3)`: the attempts it
makes for a given sequence of per-attempt outcomes. -/
def fetchWithRetry (outcomes : Nat → FetchOutcome) (maxRetries : Nat) :
    Except String Unit × List Attempt :=
  fetchLoop outcomes maxRetries (List.range maxRetries) 0

/-- A query-generation stream delivering, in one chunk, a strict-JSON
array of three valid query items. -/
def chunks3 : List String :=
  ["[\x7b\"query\":\"a\",\"researchGoal\":\"b\"\x7d,\x7b\"query\":\"c\",\"researchGoal\":\"d\"\x7d,\x7b\"query\":\"e\",\"researchGoal\":\"f\"\x7d]"]

/-- The three query items `chunks3` generates. -/
def qs3 : List QueryItem :=
  [⟨"unprocessed", "", some (.str ("a")), some (.str ("b"))⟩,
   ⟨"unprocessed", "", some (.str ("c")), some (.str ("d"))⟩,
   ⟨"unprocessed", "", some (.str ("e")), some (.str ("f"))⟩]

/-- A run with three generated queries where item 2's model call raises
and everything else succeeds. -/
def env3 : Env where
  query := "q"
  genResult := .ok chunks3
  itemResults := fun i =>
    match i with
    | 0 => .ok ("L0")
    | 1 => .error ("boom")
    | _ => .ok ("L2")
  synthResult := .ok ("report body")
  putResult := .ok ("https://blob/x")
  callbackUrl := some ("https://cb")
  reportIdFresh := "RID"
  durationStr := "5.0"
  appUrl := some ("https://app")

/-- Like `env3`, but the synthesis stream yields the empty string. -/
def envEmptySynth : Env := { env3 with synthResult := .ok ("") }

/-- Like `env3`, but all items succeed and the blob store rejects. -/
def envStoreFail : Env :=
  { env3 with itemResults := fun _ => .ok ("L"), putResult := .error ("disk full") }

/-- Webhook attempts that always fail with a non-transient fault. -/
def outcomesNonTransient : Nat → FetchOutcome := fun _ => .err ("400 Bad Request")

/-- Webhook attempts: connection reset, then timeout, then success. -/
def outcomesTransientTwice : Nat → FetchOutcome := fun i =>
  match i with
  | 0 => .err ("socket ECONNRESET")
  | 1 => .err ("ETIMEDOUT while connecting")
  | _ => .ok

/-- C1: for every combination of step outcomes, a job run with a
callback target attempts exactly one terminal notification and a job
run without one attempts none, in each of the three pipeline variants
(background route, part_001 variant, first route variant). -/
theorem exactly_one_terminal_notification (env : Env) :
    (runBackground env).terminal.length = (if env.callbackUrl.isSome then 1 else 0) ∧
    (runPart001 env).terminal.length = (if env.callbackUrl.isSome then 1 else 0) ∧
    (runV1 env).terminal.length = (if env.callbackUrl.isSome then 1 else 0) := by
  unfold runBackground runPart001 runV1
  cases env.callbackUrl <;> simp

/-- C2: in the part_001 variant the retrieval loop header reads
`for (let i = 0; i < 1; i++)`, so with three generated queries and
item 2's call raising, only the first item is processed — item states
end as `[processed, unprocessed, unprocessed]` with one learning —
while the background route's fixed loop yields
`[processed, failed, processed]` and two learnings as the claim
states. -/
theorem part001_loop_processes_only_first_item :
    (runPart001 env3).items.map QueryItem.state =
      ["processed", "unprocessed", "unprocessed"] ∧
    (runPart001 env3).learnings = ["L0"] ∧
    (runBackground env3).items.map QueryItem.state =
      ["processed", "failed", "processed"] ∧
    (runBackground env3).learnings = ["L0", "L2"] :=
  ⟨rfl, rfl, rfl, rfl⟩

/-- C3: the route copy of the tolerant parser matches the claim on all
three examples and always returns one of the three states, but the
background copy's key-quoting regex carries doubled backslashes, so on
`\x7ba:1\x7d` it returns `failed-parse`/null instead of the claimed
`repaired-parse` with the key quoted. -/
theorem tolerant_parser_examples_and_background_regex_slip :
    parsePartialJsonRoute ("\x7b\"a\":1\x7d") =
      ⟨"successful-parse", some (.obj [("a", .num ("1"))])⟩ ∧
    parsePartialJsonRoute ("\x7ba:1\x7d") =
      ⟨"repaired-parse", some (.obj [("a", .num ("1"))])⟩ ∧
    parsePartialJsonRoute ("not json") = ⟨"failed-parse", none⟩ ∧
    parsePartialJsonBackground ("\x7ba:1\x7d") = ⟨"failed-parse", none⟩ ∧
    ∀ s, (parsePartialJsonRoute s).state = "successful-parse" ∨
      (parsePartialJsonRoute s).state = "repaired-parse" ∨
      (parsePartialJsonRoute s).state = "failed-parse" := by
  refine ⟨rfl, rfl, rfl, rfl, fun s => ?_⟩
  unfold parsePartialJsonRoute
  cases jsonParse s <;> simp
  cases jsonParse (squoteToDquote (repairKeysRoute s)) <;> simp

/-- C4: the early-exit loop's guard tests the truthiness of the
`safeParse` result object, which is always truthy, so the parsed value
`[1]` — rejected by the query schema — still terminates consumption
after the first of two chunks and populates the query list with a
field-less item. -/
theorem early_exit_adopts_schema_invalid_value :
    genLoopEarlyExit (["[1]", "x"]) ("") 0 =
      ([⟨"unprocessed", "", none, none⟩], 1, "[1]") ∧
    (parsePartialJsonRoute ("[1]")).value = some (.arr [.num ("1")]) ∧
    serpSchemaCheck (.arr [.num ("1")]) = false :=
  ⟨rfl, rfl, rfl⟩

/-- C5 counterexample: in the part_001 variant an empty synthesized
report is not treated as a failure — no research error is recorded, no
report id exists, and the terminal message sent is the ambiguous-outcome
one, not the failure-class one. -/
theorem part001_empty_synthesis_not_failure :
    (runPart001 envEmptySynth).researchError = none ∧
    (runPart001 envEmptySynth).reportId = none ∧
    (runPart001 envEmptySynth).terminal = [.ambiguous ("q") ("5.0")] :=
  ⟨rfl, rfl, rfl⟩

/-- C10 counterexample: the two copies of the tolerant parser disagree
on `\x7ba:1\x7d` — the route copy repairs it, the background copy
fails it. -/
theorem parser_copies_differ_on_bare_keys :
    parsePartialJsonRoute ("\x7ba:1\x7d") ≠ parsePartialJsonBackground ("\x7ba:1\x7d") := by
  intro h
  exact absurd (congrArg ParseResult.state h) (by decide)

/-- C10 amended: the two copies coincide exactly where their
key-quoting transforms coincide (in particular on every input whose
strict parse succeeds); they differ where the route regex fires, since
the background regex, with its doubled backslashes, requires literal
backslashes in the text. -/
theorem parser_copies_agree_when_repairs_agree (s : String)
    (h : repairKeysRoute s = repairKeysBg s) :
    parsePartialJsonRoute s = parsePartialJsonBackground s := by
  unfold parsePartialJsonRoute parsePartialJsonBackground
  rw [h]

/-- C10 amended, witness at `"not json"`, where neither transform
fires. -/
theorem parser_copies_agree_when_repairs_agree_witness :
    parsePartialJsonRoute ("not json") = parsePartialJsonBackground ("not json") :=
  parser_copies_agree_when_repairs_agree ("not json") rfl

/-- C8 counterexample: the trigger schema accepts a request whose
`query` is the empty string, so a job can start with an empty query. -/
theorem requestSchema_accepts_empty_query :
    requestSchemaAccepts (.obj [("query", .str (""))]) = true := rfl

/-- C8 amended: validation requires `query` to be a string but imposes
no non-emptiness: every string — empty included — is accepted by both
the trigger and the background schemas, while a missing or non-string
`query` is rejected. -/
theorem requestSchema_query_any_string (q : String) :
    requestSchemaAccepts (.obj [("query", .str q)]) = true ∧
    backgroundTaskSchemaAccepts (.obj [("query", .str q)]) = true ∧
    requestSchemaAccepts (.obj []) = false ∧
    requestSchemaAccepts (.obj [("query", .null)]) = false :=
  ⟨rfl, rfl, rfl, rfl⟩

/-- C8 amended, witness: a concrete (non-empty) query string is
accepted. -/
theorem requestSchema_query_any_string_witness :
    requestSchemaAccepts (.obj [("query", .str ("history of tea"))]) = true :=
  (requestSchema_query_any_string ("history of tea")).1

/-- C1 witness: on a concrete run with a callback target, the
background pipeline attempts exactly one terminal notification. -/
theorem exactly_one_terminal_notification_witness :
    (runBackground env3).terminal.length = (if env3.callbackUrl.isSome then 1 else 0) :=
  (exactly_one_terminal_notification env3).1

/-- In the background core, no research error implies the persistence
step set a report identifier: generation and synthesis failures record
an error, an empty report records an error, and storage either sets
the identifier or records an error. -/
theorem aux_bg_core_error_or_id (env : Env) :
    (runBackgroundCore env).researchError = none →
    (runBackgroundCore env).reportId.isSome = true := by
  cases hg : env.genResult with
  | error e => simp [runBackgroundCore, hg]
  | ok chunks =>
    cases hq : bgGenerate chunks with
    | error e => simp [runBackgroundCore, hg, hq]
    | ok qs =>
      cases hs : env.synthResult with
      | error e => simp [runBackgroundCore, hg, hq, hs]
      | ok t =>
        by_cases htr : jsTrim t = ""
        · simp [runBackgroundCore, hg, hq, hs, htr]
        · have hne : t ≠ "" := fun h0 => htr (by rw [h0]; rfl)
          cases hp : env.putResult with
          | ok u => simp [runBackgroundCore, hg, hq, hs, htr, hne, hp]
          | error e => simp [runBackgroundCore, hg, hq, hs, htr, hne, hp]

/-- C9: whenever the background pipeline reaches the terminal message
with no captured research error, a report identifier exists, so the
fourth, ambiguous-outcome message branch is unreachable. -/
theorem background_no_ambiguous_terminal (env : Env) :
    ((runBackgroundCore env).researchError = none →
      (runBackgroundCore env).reportId.isSome = true) ∧
    ∀ q d, TerminalMsg.ambiguous q d ∉ (runBackground env).terminal := by
  refine ⟨aux_bg_core_error_or_id env, fun q d => ?_⟩
  cases hc : env.callbackUrl with
  | none => simp [runBackground, hc]
  | some u =>
    cases he : (runBackgroundCore env).researchError with
    | some e => simp [runBackground, hc, selectTerminal, he]
    | none =>
      have hid := aux_bg_core_error_or_id env he
      cases hi : (runBackgroundCore env).reportId with
      | none => rw [hi] at hid; simp at hid
      | some rid =>
        cases ha : env.appUrl <;>
          simp [runBackground, hc, selectTerminal, he, hi, ha]

/-- C9 witness: a concrete error-free run has a report identifier. -/
theorem background_no_ambiguous_terminal_witness :
    (runBackgroundCore env3).reportId.isSome = true :=
  (background_no_ambiguous_terminal env3).1 rfl

/-- C5 amended (background route): a synthesized report that is empty
after trimming fails the job — the report-synthesis error is recorded,
no identifier is produced, nothing is handed to storage, and with a
callback target the terminal message is the failure-class one. -/
theorem background_empty_synthesis_fails_job (env : Env) (chunks : List String)
    (qs : List QueryItem) (t : String)
    (hg : env.genResult = .ok chunks) (hq : bgGenerate chunks = .ok qs)
    (hs : env.synthResult = .ok t) (ht : jsTrim t = "") :
    (runBackground env).researchError = some ("Generated report is empty") ∧
    (runBackground env).reportId = none ∧
    (runBackground env).putAttempts = [] ∧
    ∀ u, env.callbackUrl = some u →
      (runBackground env).terminal =
        [.failure env.query env.durationStr ("Generated report is empty")] := by
  refine ⟨?_, ?_, ?_, fun u hu => ?_⟩ <;>
    simp [runBackground, runBackgroundCore, hg, hq, hs, ht, selectTerminal]
  simp [hu]

/-- C5 amended, witness: the concrete empty-synthesis run. -/
theorem background_empty_synthesis_fails_job_witness :
    (runBackground envEmptySynth).researchError = some ("Generated report is empty") ∧
    (runBackground envEmptySynth).putAttempts = [] :=
  ⟨(background_empty_synthesis_fails_job envEmptySynth chunks3 qs3 ("") rfl rfl rfl rfl).1,
   (background_empty_synthesis_fails_job envEmptySynth chunks3 qs3 ("") rfl rfl rfl rfl).2.2.1⟩

/-- C6: when synthesis succeeds with nonempty content but storage
rejects, both the background route and the part_001 variant mark the
job failed with the storage error, clear the report identifier,
replace the report body by a message embedding the storage error
message, and send the failure-class terminal message carrying the
elapsed-seconds string. -/
theorem storage_failure_degrades_job (env : Env) (chunks : List String)
    (qsB qsP : List QueryItem) (t e : String)
    (hg : env.genResult = .ok chunks)
    (hqB : bgGenerate chunks = .ok qsB)
    (hqP : v1Generate chunks = .ok qsP)
    (hs : env.synthResult = .ok t)
    (ht : jsTrim t ≠ "")
    (hp : env.putResult = .error e) :
    (runBackground env).researchError = some ("Failed to upload report to storage: " ++ e) ∧
    (runBackground env).reportId = none ∧
    (runBackground env).reportContent =
      "Research completed, but failed to save report: Failed to upload report to storage: " ++ e ∧
    (runPart001 env).researchError = some ("Failed to upload report to storage: " ++ e) ∧
    (runPart001 env).reportId = none ∧
    (runPart001 env).reportContent =
      "Research completed, but failed to save report: Failed to upload report to storage: " ++ e ∧
    ∀ u, env.callbackUrl = some u →
      (runBackground env).terminal =
        [.failure env.query env.durationStr ("Failed to upload report to storage: " ++ e)] ∧
      (runPart001 env).terminal =
        [.failure env.query env.durationStr ("Failed to upload report to storage: " ++ e)] := by
  have hne : t ≠ "" := fun h0 => ht (by rw [h0]; rfl)
  refine ⟨?_, ?_, ?_, ?_, ?_, ?_, fun u hu => ⟨?_, ?_⟩⟩ <;>
    simp [runBackground, runBackgroundCore, runPart001, runPart001Core,
      hg, hqB, hqP, hs, ht, hne, hp, selectTerminal] <;>
    simp [hu]

/-- C6 witness: the concrete store-rejection run. -/
theorem storage_failure_degrades_job_witness :
    (runBackground envStoreFail).researchError =
      some ("Failed to upload report to storage: disk full") ∧
    (runBackground envStoreFail).reportId = none :=
  ⟨(storage_failure_degrades_job envStoreFail chunks3 qs3 qs3 ("report body") ("disk full")
      rfl rfl rfl rfl (by decide) rfl).1,
   (storage_failure_degrades_job envStoreFail chunks3 qs3 qs3 ("report body") ("disk full")
      rfl rfl rfl rfl (by decide) rfl).2.1⟩

/-- C7: with the default budget of 3, `fetchWithRetry` makes at most 3
attempts, each carrying the 10-second timeout; its waits before the
second and third attempts are 2000 ms and 4000 ms; it reaches a second
or third attempt only after a transient (TLS/ECONNRESET/ETIMEDOUT)
failure, and a non-transient first failure is rethrown after exactly
one attempt. -/
theorem fetchWithRetry_bounded_transient_retry (outcomes : Nat → FetchOutcome) :
    (fetchWithRetry outcomes 3).2.length ≤ 3 ∧
    (∀ a ∈ (fetchWithRetry outcomes 3).2, a.timeoutMs = 10000) ∧
    ((fetchWithRetry outcomes 3).2.map Attempt.waitBeforeMs = [0] ∨
     (fetchWithRetry outcomes 3).2.map Attempt.waitBeforeMs = [0, 2000] ∨
     (fetchWithRetry outcomes 3).2.map Attempt.waitBeforeMs = [0, 2000, 4000]) ∧
    (∀ m, outcomes 0 = .err m → isTransientMsg m = false →
      (fetchWithRetry outcomes 3).1 = .error m ∧
      (fetchWithRetry outcomes 3).2.length = 1) ∧
    (2 ≤ (fetchWithRetry outcomes 3).2.length →
      ∃ m, outcomes 0 = .err m ∧ isTransientMsg m = true) ∧
    ((fetchWithRetry outcomes 3).2.length = 3 →
      ∃ m, outcomes 1 = .err m ∧ isTransientMsg m = true) := by
  cases h0 : outcomes 0 with
  | ok =>
    have hF : fetchWithRetry outcomes 3 = (.ok (), [⟨10000, 0⟩]) := by
      simp [fetchWithRetry, fetchLoop, h0, List.range_succ]
    rw [hF]
    exact ⟨by simp, by simp, by simp, fun m hm => by simp at hm,
      by intro h; simp at h, by intro h; simp at h⟩
  | err m0 =>
    cases ht0 : isTransientMsg m0 with
    | false =>
      have hF : fetchWithRetry outcomes 3 = (.error m0, [⟨10000, 0⟩]) := by
        simp [fetchWithRetry, fetchLoop, h0, ht0, List.range_succ]
      rw [hF]
      refine ⟨by simp, by simp, by simp, ?_, by intro h; simp at h, by intro h; simp at h⟩
      intro m hm hT
      injection hm with hmm
      subst hmm
      exact ⟨rfl, rfl⟩
    | true =>
      cases h1 : outcomes 1 with
      | ok =>
        have hF : fetchWithRetry outcomes 3 = (.ok (), [⟨10000, 0⟩, ⟨10000, 2000⟩]) := by
          simp [fetchWithRetry, fetchLoop, h0, ht0, h1, List.range_succ]
        rw [hF]
        refine ⟨by simp, by simp, by simp, ?_, fun _ => ⟨m0, rfl, ht0⟩, by intro h; simp at h⟩
        intro m hm hT
        injection hm with hmm
        subst hmm
        simp [hT] at ht0
      | err m1 =>
        cases ht1 : isTransientMsg m1 with
        | false =>
          have hF : fetchWithRetry outcomes 3 = (.error m1, [⟨10000, 0⟩, ⟨10000, 2000⟩]) := by
            simp [fetchWithRetry, fetchLoop, h0, ht0, h1, ht1, List.range_succ]
          rw [hF]
          refine ⟨by simp, by simp, by simp, ?_, fun _ => ⟨m0, rfl, ht0⟩, by intro h; simp at h⟩
          intro m hm hT
          injection hm with hmm
          subst hmm
          simp [hT] at ht0
        | true =>
          cases h2 : outcomes 2 with
          | ok =>
            have hF : fetchWithRetry outcomes 3 =
                (.ok (), [⟨10000, 0⟩, ⟨10000, 2000⟩, ⟨10000, 4000⟩]) := by
              simp [fetchWithRetry, fetchLoop, h0, ht0, h1, ht1, h2, List.range_succ]
            rw [hF]
            refine ⟨by simp, by simp, by simp, ?_, fun _ => ⟨m0, rfl, ht0⟩,
              fun _ => ⟨m1, rfl, ht1⟩⟩
            intro m hm hT
            injection hm with hmm
            subst hmm
            simp [hT] at ht0
          | err m2 =>
            have hF : fetchWithRetry outcomes 3 =
                (.error m2, [⟨10000, 0⟩, ⟨10000, 2000⟩, ⟨10000, 4000⟩]) := by
              simp [fetchWithRetry, fetchLoop, h0, ht0, h1, ht1, h2, List.range_succ]
            rw [hF]
            refine ⟨by simp, by simp, by simp, ?_, fun _ => ⟨m0, rfl, ht0⟩,
              fun _ => ⟨m1, rfl, ht1⟩⟩
            intro m hm hT
            injection hm with hmm
            subst hmm
            simp [hT] at ht0

/-- C7 witness: a callback that always fails with a non-transient
`400 Bad Request` is attempted exactly once and the error surfaces. -/
theorem fetchWithRetry_bounded_transient_retry_witness :
    (fetchWithRetry outcomesNonTransient 3).1 = .error ("400 Bad Request") ∧
    (fetchWithRetry outcomesNonTransient 3).2.length = 1 :=
  (fetchWithRetry_bounded_transient_retry outcomesNonTransient).2.2.2.1
    ("400 Bad Request") rfl rfl

end DeepResearch
